import Mathlib

/-!
Verification of the Dreo cloud WebSocket client (src/cloud/ws_client.py).

The Python class DreoWebSocketClient is embedded as a Lean structure; the
external collaborators (token helpers, URL template constants, the
websocket-client library) are parameters of the model.  User callbacks are
modelled by their observable behaviour: a callback invocation either returns
normally or raises a Python exception, represented by the PyError type.
Handlers and disconnect return the new state, a trace of observable actions
in execution order, and the exception (if any) that propagates out of them.
-/

namespace PydreoClient

/-- Python exception classes relevant to the client.  The source catches
exactly the pair (RuntimeError, OSError) in its try/except clauses; the
remaining constructors represent exception classes outside that pair. -/
inductive PyError where
  | runtimeError
  | osError
  | valueError
  | typeError
  deriving DecidableEq, Repr

/-- Whether an exception class is matched by the except clause
(RuntimeError, OSError) used throughout ws_client.py. -/
def is_runtime_or_os_error : PyError → Bool
  | .runtimeError => true
  | .osError => true
  | _ => false

/-- Behaviour of the external helpers module (cloud/helpers.py, an external
collaborator not part of the verified source).  Each helper call either
returns a string or raises. -/
structure Helpers where
  clean_token : String → Except PyError String
  timestamp : Except PyError String
  parse_token_and_get_endpoint : String → Except PyError String

/-- Modelled from the spec: the constants WS_BASE_URL, ENDPOINTS["WS_LOGIN"]
and EU_BASE_URL live in cloud/const.py, which is not under src/.  The spec
says the base URL template receives the region code and the login path
template receives the cleaned token and the timestamp, so each template is a
fixed string with one hole per argument, represented by its fixed pieces. -/
structure UrlConsts where
  ws_base_pre : String
  ws_base_post : String
  ws_login_pre : String
  ws_login_mid : String
  ws_login_post : String
  eu_base_url : String

/-- WS_BASE_URL.format(region_code): substitute the region code into the
single hole of the base URL template. -/
def ws_base_format (c : UrlConsts) (region_code : String) : String :=
  c.ws_base_pre ++ region_code ++ c.ws_base_post

/-- ENDPOINTS["WS_LOGIN"].format(clean_token, ts): substitute the cleaned
token and the timestamp into the two holes of the login path template. -/
def ws_login_format (c : UrlConsts) (clean_token ts : String) : String :=
  c.ws_login_pre ++ clean_token ++ c.ws_login_mid ++ ts ++ c.ws_login_post

/-- The underlying websocket-client WebSocketApp handle: the URL it was
constructed with, and the outcome of calling close() on it (an external
collaborator behaviour). -/
structure WSApp where
  url : String
  close_result : Except PyError Unit

/-- The background worker thread handle; alive is what is_alive() returns. -/
structure WorkerThread where
  alive : Bool

/-- Observable actions of the client, recorded in execution order. -/
inductive Action where
  | setConnected (b : Bool)
  | logDebug
  | logWarning
  | invokeOnOpen
  | invokeOnMessage (message : String)
  | invokeOnError (error : PyError)
  | invokeOnClose (status_code : Option Int) (reason : Option String)
  | closeCall
  | joinCall
  deriving DecidableEq, Repr

/-- Number of occurrences of an action in a trace. -/
def count_action (a : Action) : List Action → Nat
  | [] => 0
  | b :: tr => (if b = a then 1 else 0) + count_action a tr

/-- State of one DreoWebSocketClient instance: the fields set by __init__
(access_token, _ws, _thread, _connected and the four user callback slots).
A stored callback is modelled by its behaviour on each invocation. -/
structure DreoWebSocketClient where
  access_token : String
  ws : Option WSApp
  thread : Option WorkerThread
  connected : Bool
  user_on_message : Option (String → Except PyError Unit)
  user_on_error : Option (PyError → Except PyError Unit)
  user_on_close : Option (Option Int → Option String → Except PyError Unit)
  user_on_open : Option (Except PyError Unit)

/-- __init__(access_token): no connection, no thread, not connected, no
callbacks registered. -/
def DreoWebSocketClient.init (access_token : String) : DreoWebSocketClient :=
  { access_token := access_token
    ws := none
    thread := none
    connected := false
    user_on_message := none
    user_on_error := none
    user_on_close := none
    user_on_open := none }

/-- _build_ws_url: clean the token, take the timestamp, pick the region code
(eu when the endpoint helper returns EU_BASE_URL, us otherwise) and return
base + path.  A helper that raises makes the whole call raise, in the order
the source calls them: clean_token, timestamp, parse_token_and_get_endpoint. -/
def build_ws_url (c : UrlConsts) (h : Helpers) (access_token : String) :
    Except PyError String :=
  match h.clean_token access_token with
  | .error e => .error e
  | .ok clean_token =>
    match h.timestamp with
    | .error e => .error e
    | .ok ts =>
      match h.parse_token_and_get_endpoint access_token with
      | .error e => .error e
      | .ok endpoint =>
        let region_code := if endpoint = c.eu_base_url then "eu" else "us"
        let base := ws_base_format c region_code
        let path := ws_login_format c clean_token ts
        .ok (base ++ path)

/-- Environment of a connect call: the URL constants, the helpers module,
and the close() behaviour of the WebSocketApp that connect constructs. -/
structure Env where
  consts : UrlConsts
  helpers : Helpers
  new_ws_close_result : Except PyError Unit

/-- connect(on_message, on_error, on_close, on_open): store the four
callback references, build the URL, construct the WebSocketApp and start the
worker thread.  If building the URL raises, the exception propagates out of
connect with the callback stores already performed and everything after the
raise not performed. -/
def connect (env : Env) (s : DreoWebSocketClient)
    (on_message : Option (String → Except PyError Unit))
    (on_error : Option (PyError → Except PyError Unit))
    (on_close : Option (Option Int → Option String → Except PyError Unit))
    (on_open : Option (Except PyError Unit)) :
    DreoWebSocketClient × Option PyError :=
  let s1 := { s with user_on_message := on_message
                     user_on_error := on_error
                     user_on_close := on_close
                     user_on_open := on_open }
  match build_ws_url env.consts env.helpers s1.access_token with
  | .error e => (s1, some e)
  | .ok url =>
    let s2 := { s1 with ws := some { url := url
                                     close_result := env.new_ws_close_result } }
    let s3 := { s2 with thread := some { alive := true } }
    (s3, none)

/-- Tail of disconnect after the close step: join the thread if it exists
and is alive, then unconditionally set _connected to False. -/
def disconnect_after_close (s : DreoWebSocketClient) (tr : List Action) :
    DreoWebSocketClient × (List Action × Option PyError) :=
  let tr2 :=
    match s.thread with
    | some t => if t.alive then tr ++ [Action.joinCall] else tr
    | none => tr
  ({ s with connected := false }, (tr2, none))

/-- disconnect(timeout): if a WebSocketApp exists call its close(),
swallowing RuntimeError and OSError; then join the thread if alive; then
set _connected to False.  A close() exception outside the caught pair
propagates and aborts the rest of disconnect. -/
def disconnect (s : DreoWebSocketClient) :
    DreoWebSocketClient × (List Action × Option PyError) :=
  match s.ws with
  | some w =>
    match w.close_result with
    | .ok _ => disconnect_after_close s [Action.closeCall]
    | .error e =>
      if is_runtime_or_os_error e then
        disconnect_after_close s [Action.closeCall]
      else
        (s, ([Action.closeCall], some e))
  | none => disconnect_after_close s []

/-- _on_open: set _connected to True, log at debug level, then invoke the
user on_open callback if registered, catching RuntimeError and OSError from
it and logging them as a warning; other exception classes propagate. -/
def on_open (s : DreoWebSocketClient) :
    DreoWebSocketClient × (List Action × Option PyError) :=
  let s1 := { s with connected := true }
  let tr0 := [Action.setConnected true, Action.logDebug]
  match s.user_on_open with
  | none => (s1, (tr0, none))
  | some cb =>
    match cb with
    | .ok _ => (s1, (tr0 ++ [Action.invokeOnOpen], none))
    | .error e =>
      if is_runtime_or_os_error e then
        (s1, (tr0 ++ [Action.invokeOnOpen, Action.logWarning], none))
      else
        (s1, (tr0 ++ [Action.invokeOnOpen], some e))

/-- _on_message: invoke the user on_message callback if registered, catching
RuntimeError and OSError from it and logging them as a warning; other
exception classes propagate. -/
def on_message (s : DreoWebSocketClient) (message : String) :
    DreoWebSocketClient × (List Action × Option PyError) :=
  match s.user_on_message with
  | none => (s, ([], none))
  | some cb =>
    match cb message with
    | .ok _ => (s, ([Action.invokeOnMessage message], none))
    | .error e =>
      if is_runtime_or_os_error e then
        (s, ([Action.invokeOnMessage message, Action.logWarning], none))
      else
        (s, ([Action.invokeOnMessage message], some e))

/-- _on_error: log at debug level, then invoke the user on_error callback if
registered, catching RuntimeError and OSError from it and logging them as a
warning; other exception classes propagate. -/
def on_error (s : DreoWebSocketClient) (error : PyError) :
    DreoWebSocketClient × (List Action × Option PyError) :=
  let tr0 := [Action.logDebug]
  match s.user_on_error with
  | none => (s, (tr0, none))
  | some cb =>
    match cb error with
    | .ok _ => (s, (tr0 ++ [Action.invokeOnError error], none))
    | .error e =>
      if is_runtime_or_os_error e then
        (s, (tr0 ++ [Action.invokeOnError error, Action.logWarning], none))
      else
        (s, (tr0 ++ [Action.invokeOnError error], some e))

/-- _on_close: set _connected to False, log at debug level, then invoke the
user on_close callback if registered, catching RuntimeError and OSError from
it and logging them as a warning; other exception classes propagate. -/
def on_close (s : DreoWebSocketClient) (status_code : Option Int)
    (reason : Option String) :
    DreoWebSocketClient × (List Action × Option PyError) :=
  let s1 := { s with connected := false }
  let tr0 := [Action.setConnected false, Action.logDebug]
  match s.user_on_close with
  | none => (s1, (tr0, none))
  | some cb =>
    match cb status_code reason with
    | .ok _ => (s1, (tr0 ++ [Action.invokeOnClose status_code reason], none))
    | .error e =>
      if is_runtime_or_os_error e then
        (s1, (tr0 ++ [Action.invokeOnClose status_code reason,
                      Action.logWarning], none))
      else
        (s1, (tr0 ++ [Action.invokeOnClose status_code reason], some e))

/-! Concrete exemplar environments used by witnesses and counterexamples. -/

/-- Exemplar URL constants, with template pieces in the shape the spec
describes (one hole in the base URL, two holes in the login path). -/
def c0 : UrlConsts :=
  { ws_base_pre := "wss://wsb-"
    ws_base_post := ".dreo-cloud.com"
    ws_login_pre := "/websocket?accessToken="
    ws_login_mid := "&timestamp="
    ws_login_post := ""
    eu_base_url := "https://app-api-eu.dreo-cloud.com" }

/-- Exemplar helpers whose endpoint helper returns the EU endpoint. -/
def h0 : Helpers :=
  { clean_token := fun t => .ok t
    timestamp := .ok "1700000000000"
    parse_token_and_get_endpoint := fun _ => .ok "https://app-api-eu.dreo-cloud.com" }

/-- Exemplar helpers whose endpoint helper returns a non-EU identifier. -/
def h1 : Helpers :=
  { h0 with parse_token_and_get_endpoint := fun _ => .ok "https://app-api.dreo-cloud.com" }

/-- Exemplar helpers whose timestamp helper raises. -/
def h2 : Helpers :=
  { h0 with timestamp := .error PyError.runtimeError }

/-- Exemplar connect environment: EU helpers, close() succeeds. -/
def env0 : Env :=
  { consts := c0, helpers := h0, new_ws_close_result := .ok () }

/-- Exemplar connect environment whose timestamp helper raises. -/
def env2 : Env :=
  { consts := c0, helpers := h2, new_ws_close_result := .ok () }

/-- A client that went through connect (in env0) and then the open event:
it has a live WebSocketApp handle, a worker thread and connected = true. -/
def connected_client : DreoWebSocketClient :=
  (on_open (connect env0 (DreoWebSocketClient.init "tok") none none none none).1).1

/-! Helper lemmas shared by several theorems. -/

/-- Whether calling close() on the handle propagates an exception out of the
try/except of disconnect: only exception classes outside the caught pair do. -/
def close_raised : Option WSApp → Option PyError
  | some w =>
    match w.close_result with
    | .ok _ => none
    | .error e => if is_runtime_or_os_error e then none else some e
  | none => none

theorem disconnect_after_close_fst (s : DreoWebSocketClient) (tr : List Action) :
    (disconnect_after_close s tr).1 = { s with connected := false } := rfl

theorem disconnect_after_close_raised (s : DreoWebSocketClient) (tr : List Action) :
    (disconnect_after_close s tr).2.2 = none := rfl

/-- Shape of disconnect: either close() did not propagate, and the result is
the input state with connected set to false and no exception; or close()
propagated, the state is unchanged and the exception comes out. -/
theorem disconnect_shape (s : DreoWebSocketClient) :
    ((disconnect s).1 = { s with connected := false } ∧ (disconnect s).2.2 = none) ∨
    ((disconnect s).1 = s ∧ (disconnect s).2.2 ≠ none) := by
  unfold disconnect
  split
  · split
    · exact Or.inl ⟨rfl, rfl⟩
    · split
      · exact Or.inl ⟨rfl, rfl⟩
      · exact Or.inr ⟨rfl, by simp⟩
  · exact Or.inl ⟨rfl, rfl⟩

/-- The exception propagating out of disconnect depends only on the handle. -/
theorem disconnect_raised_eq (s : DreoWebSocketClient) :
    (disconnect s).2.2 = close_raised s.ws := by
  unfold disconnect close_raised
  split
  · split
    · rfl
    · split <;> rfl
  · rfl

/-- disconnect never changes the _ws handle. -/
theorem disconnect_fst_ws (s : DreoWebSocketClient) :
    (disconnect s).1.ws = s.ws := by
  rcases disconnect_shape s with ⟨h1, _⟩ | ⟨h1, _⟩ <;> rw [h1]

/-- When disconnect returns normally, connected is false afterwards. -/
theorem disconnect_ok_connected (s : DreoWebSocketClient)
    (h : (disconnect s).2.2 = none) : (disconnect s).1.connected = false := by
  rcases disconnect_shape s with ⟨h1, _⟩ | ⟨_, h2⟩
  · rw [h1]
  · exact absurd h h2

/-- _on_message never changes the client state. -/
theorem on_message_fst (s : DreoWebSocketClient) (m : String) :
    (on_message s m).1 = s := by
  unfold on_message
  split
  · rfl
  · split
    · rfl
    · split <;> rfl

/-- When an on_message callback is registered, the message is forwarded to
it: the invocation appears in the handler trace whatever the callback does. -/
theorem on_message_invokes (s : DreoWebSocketClient)
    (cb : String → Except PyError Unit) (m : String)
    (hcb : s.user_on_message = some cb) :
    Action.invokeOnMessage m ∈ (on_message s m).2.1 := by
  unfold on_message
  split
  · rename_i hnone
    rw [hcb] at hnone
    cases hnone
  · rename_i cb2 hcb2
    split
    · simp
    · split <;> simp

/-- When the on_message callback raises an exception of the caught pair, the
handler swallows it and logs a warning. -/
theorem on_message_isolates (s : DreoWebSocketClient)
    (cb : String → Except PyError Unit) (msg : String) (e : PyError)
    (hcb : s.user_on_message = some cb) (hr : cb msg = Except.error e)
    (he : is_runtime_or_os_error e = true) :
    (on_message s msg).2.2 = none ∧ Action.logWarning ∈ (on_message s msg).2.1 := by
  unfold on_message
  split
  · rename_i hnone
    rw [hcb] at hnone
    cases hnone
  · rename_i cb2 hcb2
    rw [hcb] at hcb2
    injection hcb2 with hcb3
    subst hcb3
    split
    · rename_i u heq
      rw [hr] at heq
      cases heq
    · rename_i e2 heq
      rw [hr] at heq
      injection heq with he2
      subst he2
      simp [he]

/-- When the on_error callback raises an exception of the caught pair, the
handler swallows it and logs a warning. -/
theorem on_error_isolates (s : DreoWebSocketClient)
    (cb : PyError → Except PyError Unit) (err : PyError) (e : PyError)
    (hcb : s.user_on_error = some cb) (hr : cb err = Except.error e)
    (he : is_runtime_or_os_error e = true) :
    (on_error s err).2.2 = none ∧ Action.logWarning ∈ (on_error s err).2.1 := by
  unfold on_error
  split
  · rename_i hnone
    rw [hcb] at hnone
    cases hnone
  · rename_i cb2 hcb2
    rw [hcb] at hcb2
    injection hcb2 with hcb3
    subst hcb3
    split
    · rename_i u heq
      rw [hr] at heq
      cases heq
    · rename_i e2 heq
      rw [hr] at heq
      injection heq with he2
      subst he2
      simp [he]

/-- When the on_close callback raises an exception of the caught pair, the
handler swallows it and logs a warning. -/
theorem on_close_isolates (s : DreoWebSocketClient)
    (cb : Option Int → Option String → Except PyError Unit)
    (code : Option Int) (reason : Option String) (e : PyError)
    (hcb : s.user_on_close = some cb) (hr : cb code reason = Except.error e)
    (he : is_runtime_or_os_error e = true) :
    (on_close s code reason).2.2 = none ∧
      Action.logWarning ∈ (on_close s code reason).2.1 := by
  unfold on_close
  split
  · rename_i hnone
    rw [hcb] at hnone
    cases hnone
  · rename_i cb2 hcb2
    rw [hcb] at hcb2
    injection hcb2 with hcb3
    subst hcb3
    split
    · rename_i u heq
      rw [hr] at heq
      cases heq
    · rename_i e2 heq
      rw [hr] at heq
      injection heq with he2
      subst he2
      simp [he]

/-- When the on_open callback raises an exception of the caught pair, the
handler swallows it and logs a warning. -/
theorem on_open_isolates (s : DreoWebSocketClient) (e : PyError)
    (hcb : s.user_on_open = some (Except.error e))
    (he : is_runtime_or_os_error e = true) :
    (on_open s).2.2 = none ∧ Action.logWarning ∈ (on_open s).2.1 := by
  unfold on_open
  split
  · rename_i hnone
    rw [hcb] at hnone
    cases hnone
  · rename_i cb2 hcb2
    rw [hcb] at hcb2
    injection hcb2 with hcb3
    subst hcb3
    split
    · rename_i u heq
      cases heq
    · rename_i e2 heq
      injection heq with he2
      subst he2
      simp [he]

/-! Theorems. -/

/-- C1: for every access token, when parse_token_and_get_endpoint returns
the EU endpoint identifier the URL built by connect via _build_ws_url starts
with the EU base URL segment (the base template formatted with region code
eu); for every other returned identifier it starts with the US base URL
segment (the base template formatted with region code us). -/
theorem C1_region_selection (c : UrlConsts) (h : Helpers) (t ct ts ep : String)
    (hct : h.clean_token t = .ok ct) (hts : h.timestamp = .ok ts)
    (hep : h.parse_token_and_get_endpoint t = .ok ep) :
    (ep = c.eu_base_url →
      ∃ rest, build_ws_url c h t = .ok (ws_base_format c "eu" ++ rest)) ∧
    (ep ≠ c.eu_base_url →
      ∃ rest, build_ws_url c h t = .ok (ws_base_format c "us" ++ rest)) := by
  unfold build_ws_url
  rw [hct, hts, hep]
  constructor
  · intro he
    exact ⟨ws_login_format c ct ts, by simp [he]⟩
  · intro he
    exact ⟨ws_login_format c ct ts, by simp [he]⟩

/-- Witness for C1 at concrete inputs: with the EU-returning helpers the
built URL starts with the EU base URL segment. -/
theorem C1_region_selection_witness :
    ∃ rest, build_ws_url c0 h0 "tok" = .ok (ws_base_format c0 "eu" ++ rest) :=
  (C1_region_selection c0 h0 "tok" "tok" "1700000000000"
    "https://app-api-eu.dreo-cloud.com" rfl rfl rfl).1 rfl

/-- C2: for every access token on which the helpers return normally, the URL
built by connect via _build_ws_url equals the region base URL template
formatted with the region code, followed by the login path template
formatted with the cleaned token and the timestamp, in that order, with
nothing else appended. -/
theorem C2_url_exact_format (c : UrlConsts) (h : Helpers) (t ct ts ep : String)
    (hct : h.clean_token t = .ok ct) (hts : h.timestamp = .ok ts)
    (hep : h.parse_token_and_get_endpoint t = .ok ep) :
    build_ws_url c h t =
      .ok (ws_base_format c (if ep = c.eu_base_url then "eu" else "us") ++
        ws_login_format c ct ts) := by
  unfold build_ws_url
  rw [hct, hts, hep]

/-- Witness for C2 at concrete inputs: with the non-EU helpers the built URL
is exactly the us base followed by the instantiated login path. -/
theorem C2_url_exact_format_witness :
    build_ws_url c0 h1 "tok" =
      .ok (ws_base_format c0 "us" ++ ws_login_format c0 "tok" "1700000000000") := by
  have h := C2_url_exact_format c0 h1 "tok" "tok" "1700000000000"
    "https://app-api.dreo-cloud.com" rfl rfl rfl
  simpa using h

/-- A client whose on_message callback raises a ValueError, an exception
class outside the pair caught by the forwarding handlers. -/
def raising_on_message_client : DreoWebSocketClient :=
  { DreoWebSocketClient.init "tok" with
    user_on_message := some (fun _ => Except.error PyError.valueError) }

/-- C3 counterexample: the forwarding handlers catch only RuntimeError and
OSError, so an on_message callback raising a ValueError propagates out of
_on_message without any warning being logged, refuting the claim that every
exception raised by a user callback is caught inside the handler. -/
theorem C3_counterexample :
    (on_message raising_on_message_client "hello").2.2 = some PyError.valueError ∧
    Action.logWarning ∉ (on_message raising_on_message_client "hello").2.1 := by
  constructor
  · rfl
  · decide

/-- C3 amended: for every registered user callback, every RuntimeError or
OSError the callback raises when invoked by the corresponding forwarding
handler is caught inside the handler, logged as a warning, and not
propagated; exceptions of other classes propagate out of the handler.
An on_message callback raising a caught-class exception does not prevent a
subsequent message event from being forwarded. -/
theorem C3_callback_isolation
    (s : DreoWebSocketClient) (e : PyError) (he : is_runtime_or_os_error e = true)
    (cbm : String → Except PyError Unit) (msg m2 : String)
    (hm : s.user_on_message = some cbm) (hmr : cbm msg = Except.error e)
    (cbe : PyError → Except PyError Unit) (err : PyError)
    (hee : s.user_on_error = some cbe) (her : cbe err = Except.error e)
    (cbc : Option Int → Option String → Except PyError Unit)
    (code : Option Int) (reason : Option String)
    (hc : s.user_on_close = some cbc) (hcr : cbc code reason = Except.error e)
    (ho : s.user_on_open = some (Except.error e)) :
    ((on_message s msg).2.2 = none ∧ Action.logWarning ∈ (on_message s msg).2.1) ∧
    ((on_error s err).2.2 = none ∧ Action.logWarning ∈ (on_error s err).2.1) ∧
    ((on_close s code reason).2.2 = none ∧
      Action.logWarning ∈ (on_close s code reason).2.1) ∧
    ((on_open s).2.2 = none ∧ Action.logWarning ∈ (on_open s).2.1) ∧
    Action.invokeOnMessage m2 ∈ (on_message (on_message s msg).1 m2).2.1 := by
  refine ⟨on_message_isolates s cbm msg e hm hmr he,
         on_error_isolates s cbe err e hee her he,
         on_close_isolates s cbc code reason e hc hcr he,
         on_open_isolates s e ho he, ?_⟩
  rw [on_message_fst]
  exact on_message_invokes s cbm m2 hm

/-- A client whose four callbacks all raise RuntimeError, the first of the
two exception classes the forwarding handlers catch. -/
def catchable_raising_client : DreoWebSocketClient :=
  { DreoWebSocketClient.init "tok" with
    user_on_message := some (fun _ => Except.error PyError.runtimeError)
    user_on_error := some (fun _ => Except.error PyError.runtimeError)
    user_on_close := some (fun _ _ => Except.error PyError.runtimeError)
    user_on_open := some (Except.error PyError.runtimeError) }

/-- Witness for C3 at a concrete client whose callbacks raise RuntimeError:
the message handler swallows the exception and a second message is still
forwarded. -/
theorem C3_callback_isolation_witness :
    (on_message catchable_raising_client "m1").2.2 = none ∧
    Action.invokeOnMessage "m2" ∈
      (on_message (on_message catchable_raising_client "m1").1 "m2").2.1 := by
  have h := C3_callback_isolation catchable_raising_client PyError.runtimeError rfl
    (fun _ => Except.error PyError.runtimeError) "m1" "m2" rfl rfl
    (fun _ => Except.error PyError.runtimeError) PyError.osError rfl rfl
    (fun _ _ => Except.error PyError.runtimeError) (some 1000) (some "bye") rfl rfl
    rfl
  exact ⟨h.1.1, h.2.2.2.2⟩

/-- C4 counterexample: a client that connected and received the open event
has connected = true; calling disconnect on it returns a state with
connected = false, so an execution of disconnect does directly change the
value of the connected flag, refuting the claim. -/
theorem C4_counterexample :
    connected_client.connected = true ∧
    (disconnect connected_client).2.2 = none ∧
    (disconnect connected_client).1.connected = false :=
  ⟨rfl, rfl, rfl⟩

/-- C4 amended: connect never changes the connected flag (whether URL
construction raises or not), the open handler sets it to true and the close
handler sets it to false; but disconnect also unconditionally sets
connected to false on normal return, directly changing its value whenever
it was true at that point. -/
theorem C4_connected_transitions (env : Env) (s : DreoWebSocketClient)
    (om : Option (String → Except PyError Unit))
    (oe : Option (PyError → Except PyError Unit))
    (oc : Option (Option Int → Option String → Except PyError Unit))
    (oo : Option (Except PyError Unit))
    (code : Option Int) (reason : Option String) :
    (connect env s om oe oc oo).1.connected = s.connected ∧
    (on_open s).1.connected = true ∧
    (on_close s code reason).1.connected = false ∧
    ((disconnect s).2.2 = none → (disconnect s).1.connected = false) := by
  refine ⟨?_, ?_, ?_, fun h => disconnect_ok_connected s h⟩
  · unfold connect
    dsimp only
    split <;> rfl
  · unfold on_open
    dsimp only
    split
    · rfl
    · split
      · rfl
      · split <;> rfl
  · unfold on_close
    dsimp only
    split
    · rfl
    · split
      · rfl
      · split <;> rfl

/-- Witness for C4 amended at concrete inputs: connect leaves connected
false on the fresh client, and disconnect on the connected client returns
with connected false. -/
theorem C4_connected_transitions_witness :
    (connect env0 (DreoWebSocketClient.init "tok") none none none none).1.connected =
      (DreoWebSocketClient.init "tok").connected ∧
    (disconnect connected_client).1.connected = false := by
  have h := C4_connected_transitions env0 (DreoWebSocketClient.init "tok")
    none none none none (some 1000) (some "bye")
  have h2 := C4_connected_transitions env0 connected_client
    none none none none (some 1000) (some "bye")
  exact ⟨h.1, h2.2.2.2 rfl⟩

/-- A client holding a WebSocketApp whose close() raises a ValueError, an
exception class outside the pair caught by disconnect. -/
def bad_close_client : DreoWebSocketClient :=
  { DreoWebSocketClient.init "tok" with
    ws := some { url := "u", close_result := Except.error PyError.valueError } }

/-- C5 counterexample: disconnect catches only RuntimeError and OSError
around close(), so a close() raising a ValueError propagates out of
disconnect instead of being swallowed, refuting the claim for arbitrary
failures. -/
theorem C5_counterexample :
    (disconnect bad_close_client).2.2 = some PyError.valueError := rfl

/-- C5 amended: for every Session with an existing connection handle whose
close() raises a RuntimeError or an OSError during disconnect, the failure
is swallowed inside disconnect and disconnect continues to completion,
returning with connected false; exceptions of other classes propagate. -/
theorem C5_close_error_swallowed (s : DreoWebSocketClient) (w : WSApp)
    (e : PyError) (hw : s.ws = some w) (hres : w.close_result = Except.error e)
    (he : is_runtime_or_os_error e = true) :
    (disconnect s).2.2 = none ∧ (disconnect s).1.connected = false := by
  have hr : (disconnect s).2.2 = none := by
    rw [disconnect_raised_eq, hw]
    simp [close_raised, hres, he]
  exact ⟨hr, disconnect_ok_connected s hr⟩

/-- A client holding a WebSocketApp whose close() raises a RuntimeError. -/
def runtime_close_client : DreoWebSocketClient :=
  { DreoWebSocketClient.init "tok" with
    ws := some { url := "u", close_result := Except.error PyError.runtimeError } }

/-- Witness for C5 amended at a concrete client whose close() raises a
RuntimeError: disconnect swallows it and completes. -/
theorem C5_close_error_swallowed_witness :
    (disconnect runtime_close_client).2.2 = none ∧
    (disconnect runtime_close_client).1.connected = false :=
  C5_close_error_swallowed runtime_close_client
    { url := "u", close_result := Except.error PyError.runtimeError }
    PyError.runtimeError rfl rfl rfl

/-- C6: connected is false immediately after construction and, whenever
disconnect returns (rather than propagating a close-time exception),
connected is false immediately afterwards, regardless of the thread and
close outcomes. -/
theorem C6_connected_false_after_init_and_disconnect (tok : String)
    (s : DreoWebSocketClient) :
    (DreoWebSocketClient.init tok).connected = false ∧
    ((disconnect s).2.2 = none → (disconnect s).1.connected = false) :=
  ⟨rfl, fun h => disconnect_ok_connected s h⟩

/-- Witness for C6 at concrete inputs: the fresh client is not connected,
and disconnect on the connected client returns with connected false. -/
theorem C6_connected_false_witness :
    (DreoWebSocketClient.init "tok").connected = false ∧
    (disconnect connected_client).1.connected = false :=
  ⟨(C6_connected_false_after_init_and_disconnect "tok" connected_client).1,
   (C6_connected_false_after_init_and_disconnect "tok" connected_client).2 rfl⟩

/-- C7: disconnect on a client on which connect has never been called (no
handle, no thread) raises nothing, performs no close and no join, and leaves
connected false; and after any disconnect that returned normally, a second
disconnect also returns normally with connected false. -/
theorem C7_disconnect_idempotent (s : DreoWebSocketClient)
    (hws : s.ws = none) (hth : s.thread = none) :
    disconnect s = ({ s with connected := false }, ([], none)) ∧
    ∀ s2 s3 tr, disconnect s2 = (s3, (tr, none)) →
      (disconnect s3).2.2 = none ∧ (disconnect s3).1.connected = false := by
  constructor
  · unfold disconnect
    split
    · rename_i w hw
      rw [hws] at hw
      cases hw
    · unfold disconnect_after_close
      rw [hth]
  · intro s2 s3 tr h
    have hr2 : (disconnect s2).2.2 = none := by rw [h]
    rcases disconnect_shape s2 with ⟨h1, _⟩ | ⟨_, hne⟩
    · have hs3 : s3 = { s2 with connected := false } := by
        have hfst : (disconnect s2).1 = s3 := by rw [h]
        rw [← hfst, h1]
      have hws3 : s3.ws = s2.ws := by rw [hs3]
      have hr3 : (disconnect s3).2.2 = none := by
        rw [disconnect_raised_eq, hws3, ← disconnect_raised_eq s2]
        exact hr2
      exact ⟨hr3, disconnect_ok_connected s3 hr3⟩
    · exact absurd hr2 hne

/-- Witness for C7 at concrete inputs: disconnect on a freshly constructed
client is a no-op apart from connected, and a second disconnect after a
normal disconnect again returns normally with connected false. -/
theorem C7_disconnect_idempotent_witness :
    disconnect (DreoWebSocketClient.init "tok") =
      ({ DreoWebSocketClient.init "tok" with connected := false }, ([], none)) ∧
    (disconnect (disconnect connected_client).1).2.2 = none := by
  have h := C7_disconnect_idempotent (DreoWebSocketClient.init "tok") rfl rfl
  refine ⟨h.1, ?_⟩
  have h2 := h.2 connected_client (disconnect connected_client).1
    (disconnect connected_client).2.1 rfl
  exact h2.1

/-- C8: the open handler sets connected to true; its trace starts with the
connected update followed by the debug log, so the flag is set before any
callback invocation; when an on_open callback is registered it is invoked
exactly once (with no arguments), and when none is registered the handler
performs exactly the two internal actions and invokes no user callback. -/
theorem C8_on_open_behavior (s : DreoWebSocketClient) :
    (on_open s).1.connected = true ∧
    (on_open s).2.1.take 2 = [Action.setConnected true, Action.logDebug] ∧
    (s.user_on_open.isSome = true →
      count_action Action.invokeOnOpen (on_open s).2.1 = 1) ∧
    (s.user_on_open = none →
      (on_open s).2.1 = [Action.setConnected true, Action.logDebug]) := by
  unfold on_open
  dsimp only
  split
  · rename_i hnone
    refine ⟨rfl, rfl, fun h => ?_, fun _ => rfl⟩
    rw [hnone] at h
    cases h
  · rename_i cb hcb
    have hnotnone : s.user_on_open = none → False := by
      intro h
      rw [hcb] at h
      cases h
    split
    · exact ⟨rfl, rfl, fun _ => by simp [count_action], fun h => absurd h hnotnone⟩
    · split
      · exact ⟨rfl, rfl, fun _ => by simp [count_action], fun h => absurd h hnotnone⟩
      · exact ⟨rfl, rfl, fun _ => by simp [count_action], fun h => absurd h hnotnone⟩

/-- A client with an on_open callback registered that returns normally. -/
def open_cb_client : DreoWebSocketClient :=
  { DreoWebSocketClient.init "tok" with user_on_open := some (Except.ok ()) }

/-- Witness for C8 at a concrete client with a registered on_open callback:
the open handler leaves connected true and invokes the callback once. -/
theorem C8_on_open_behavior_witness :
    (on_open open_cb_client).1.connected = true ∧
    count_action Action.invokeOnOpen (on_open open_cb_client).2.1 = 1 :=
  ⟨(C8_on_open_behavior open_cb_client).1,
   (C8_on_open_behavior open_cb_client).2.2.1 rfl⟩

/-- C9 counterexample: after connect and the open event the client holds a
WebSocketApp handle, and after disconnect returns normally the handle is
still present, refuting the claim that disconnect clears the connection
handle. -/
theorem C9_counterexample :
    (disconnect connected_client).2.2 = none ∧
    ((disconnect connected_client).1.ws).isSome = true := by
  refine ⟨rfl, ?_⟩
  rw [disconnect_fst_ws]
  rfl

/-- C9 amended: disconnect leaves the connection handle exactly as it was;
the handle is not cleared, so the state after disconnect differs from the
pre-connect state in which no handle exists. -/
theorem C9_ws_handle_retained (s : DreoWebSocketClient) :
    (disconnect s).1.ws = s.ws :=
  disconnect_fst_ws s

/-- C10: connect stores the four user callback references before building
the URL, so when _build_ws_url raises, the exception propagates out of
connect with the callback slots already overwritten with the new values
while the connection handle, the thread handle and the connected flag still
hold their previous values. -/
theorem C10_connect_not_atomic_on_url_failure (env : Env)
    (s : DreoWebSocketClient)
    (om : Option (String → Except PyError Unit))
    (oe : Option (PyError → Except PyError Unit))
    (oc : Option (Option Int → Option String → Except PyError Unit))
    (oo : Option (Except PyError Unit)) (e : PyError)
    (hfail : build_ws_url env.consts env.helpers s.access_token = Except.error e) :
    connect env s om oe oc oo =
      ({ s with user_on_message := om, user_on_error := oe,
                user_on_close := oc, user_on_open := oo }, some e) ∧
    (connect env s om oe oc oo).1.ws = s.ws ∧
    (connect env s om oe oc oo).1.thread = s.thread ∧
    (connect env s om oe oc oo).1.connected = s.connected := by
  have hmain : connect env s om oe oc oo =
      ({ s with user_on_message := om, user_on_error := oe,
                user_on_close := oc, user_on_open := oo }, some e) := by
    unfold connect
    dsimp only
    split
    · rename_i e2 heq
      rw [hfail] at heq
      injection heq with he2
      rw [he2]
    · rename_i url heq
      rw [hfail] at heq
      cases heq
  exact ⟨hmain, by rw [hmain], by rw [hmain], by rw [hmain]⟩

/-- Witness for C10 at a concrete failing environment (the timestamp helper
raises RuntimeError): connect raises, the on_message slot holds the new
callback, and handle, thread and connected are untouched. -/
theorem C10_connect_not_atomic_witness :
    (connect env2 (DreoWebSocketClient.init "tok")
        (some (fun _ => Except.ok ())) none none none).2 =
      some PyError.runtimeError ∧
    (connect env2 (DreoWebSocketClient.init "tok")
        (some (fun _ => Except.ok ())) none none none).1.user_on_message =
      some (fun _ => Except.ok ()) ∧
    (connect env2 (DreoWebSocketClient.init "tok")
        (some (fun _ => Except.ok ())) none none none).1.ws = none := by
  have h := C10_connect_not_atomic_on_url_failure env2
    (DreoWebSocketClient.init "tok") (some (fun _ => Except.ok ()))
    none none none PyError.runtimeError rfl
  exact ⟨by rw [h.1], by rw [h.1], h.2.1⟩

end PydreoClient
